import Mathlib

/-!
Verification of the Genesis greeting bridge
(`app/src/main/cpp/native-lib.cpp`).

The source is a single exported JNI function:

```
extern "C" JNIEXPORT jstring JNICALL
Java_com_auraframes_fx_MainActivity_stringFromJNI(JNIEnv *env, jobject) {
    std::string hello = "Hello from Genesis C++ Core";
    return env->NewStringUTF(hello.c_str());
}
```

We give a shallow embedding: managed strings are lists of UTF-16 code
units, the JNI environment carries an allocation oracle for the
`NewStringUTF` facility, `c_str` / `NewStringUTF` marshalling is modelled
byte-for-byte (null-terminated buffer, modified-UTF-8 decode), and side
effects are modelled by explicit state passing over a process world.
-/

namespace GenesisBridge

/-- A managed-runtime (Java) string object: its UTF-16 code units. -/
structure JavaString where
  codeUnits : List Nat
deriving DecidableEq, Repr

/-- An opaque reference to the invoking managed object (the `jobject`
argument).  The bridge never reads it. -/
structure JObject where
  ref : Nat
deriving DecidableEq, Repr

/-- Model of a (valid, dereferenceable) `JNIEnv` handle.  The only facility
the bridge uses is `NewStringUTF`; the handle carries the one
environment-level condition that facility exposes: whether allocation of
the managed string object fails at this call. -/
structure JNIEnv where
  allocFails : Bool
deriving DecidableEq, Repr

/-- The bytes of the C++ string literal in the source.  The literal is
ASCII, so each byte is the code point of the corresponding character. -/
def bytesOfLiteral (s : String) : List Nat :=
  s.toList.map Char.toNat

/-- `std::string hello = "Hello from Genesis C++ Core";` — the contents of
the native string object, as bytes. -/
def hello : List Nat :=
  bytesOfLiteral "Hello from Genesis C++ Core"

/-- `hello.c_str()`: the null-terminated character buffer backing the
native string — its bytes followed by a terminating NUL byte. -/
def cStrBuffer (s : List Nat) : List Nat :=
  s ++ [0]

/-- What a C-string consumer (such as `NewStringUTF`) reads from a
null-terminated buffer: the bytes strictly before the first NUL. -/
def readNulTerminated (buf : List Nat) : List Nat :=
  buf.takeWhile (fun b => b ≠ 0)

/-- Modified-UTF-8 decoding, as performed by `NewStringUTF`: bytes
`0x01–0x7F` stand for themselves, two-byte sequences `0xC0–0xDF` followed
by a continuation byte encode code points up to `0x7FF` (including the
encoding `0xC0 0x80` of NUL), three-byte sequences `0xE0–0xEF` encode the
rest of the UTF-16 code units; a bare NUL, a stray continuation byte, or a
truncated sequence is malformed. -/
def mutf8Decode : List Nat → Option (List Nat)
  | [] => some []
  | b1 :: rest =>
    if b1 = 0 then none
    else if b1 < 0x80 then (mutf8Decode rest).map (fun cs => b1 :: cs)
    else if b1 < 0xC0 then none
    else if b1 < 0xE0 then
      match rest with
      | b2 :: rest2 =>
        if 0x80 ≤ b2 ∧ b2 < 0xC0 then
          (mutf8Decode rest2).map
            (fun cs => ((b1 - 0xC0) * 0x40 + (b2 - 0x80)) :: cs)
        else none
      | [] => none
    else if b1 < 0xF0 then
      match rest with
      | b2 :: b3 :: rest3 =>
        if (0x80 ≤ b2 ∧ b2 < 0xC0) ∧ (0x80 ≤ b3 ∧ b3 < 0xC0) then
          (mutf8Decode rest3).map
            (fun cs =>
              ((b1 - 0xE0) * 0x1000 + (b2 - 0x80) * 0x40 + (b3 - 0x80)) :: cs)
        else none
      | _ => none
    else none

/-- Model of the JNI `NewStringUTF` facility: reads the null-terminated
modified-UTF-8 buffer and constructs a managed string object from the
decoded code units.  It returns null (`none`) when allocation of the
managed object fails — the one environment-level failure the interop
layer exposes — or when the buffer is malformed. -/
def JNIEnv.newStringUTF (env : JNIEnv) (buf : List Nat) : Option JavaString :=
  if env.allocFails then none
  else (mutf8Decode (readNulTerminated buf)).map JavaString.mk

/-- The bridge, `Java_com_auraframes_fx_MainActivity_stringFromJNI`:
builds the native string `hello` and returns `env->NewStringUTF
(hello.c_str())` unmodified. -/
def stringFromJNI (env : JNIEnv) (_thisRef : JObject) : Option JavaString :=
  env.newStringUTF (cStrBuffer hello)

/-- Outcome of invoking the exported function through the raw C ABI, where
the environment argument is a pointer that may be null.  In C++, calling a
member through a null pointer is undefined behaviour, which the embedding
makes an explicit outcome. -/
inductive CallOutcome where
  | ret : Option JavaString → CallOutcome
  | undefinedBehavior : CallOutcome
deriving DecidableEq, Repr

/-- The bridge as invoked through the raw ABI: `env` is a possibly-null
pointer.  The body performs `env->NewStringUTF(...)` with no null or
validity check, so a null handle is dereferenced — undefined behaviour —
while a valid handle runs the pure bridge. -/
def stringFromJNIRaw (env : Option JNIEnv) (t : JObject) : CallOutcome :=
  match env with
  | none => CallOutcome.undefinedBehavior
  | some e => CallOutcome.ret (stringFromJNI e t)

/-- Observable process-wide state threaded through invocations: file
contents written, the process's global-variable region, the managed heap
of string objects, and a count of native-layer buffer allocations
performed. -/
structure World where
  filesWritten : List (List Nat)
  globals : List Nat
  javaHeap : List JavaString
  nativeAllocs : Nat
deriving DecidableEq, Repr

/-- One invocation of the bridge with its effects made explicit.  The body
performs exactly two allocations: the `std::string` constructor allocates
one native-layer text buffer, and `NewStringUTF` (when it succeeds)
allocates one managed string object on the managed heap.  It performs no
I/O and touches no globals. -/
def invoke (env : JNIEnv) (t : JObject) (w : World) :
    Option JavaString × World :=
  match stringFromJNI env t with
  | none =>
      (none,
       World.mk w.filesWritten w.globals w.javaHeap (w.nativeAllocs + 1))
  | some s =>
      (some s,
       World.mk w.filesWritten w.globals (w.javaHeap ++ [s])
         (w.nativeAllocs + 1))

/-- Sequential composition of any number of invocations. -/
def runAll (calls : List (JNIEnv × JObject)) (w : World) : World :=
  calls.foldl (fun w0 c => (invoke c.1 c.2 w0).2) w

/-- The symbol the source exports (line 17 of `native-lib.cpp`). -/
def exportedSymbol : String :=
  "Java_com_auraframes_fx_MainActivity_stringFromJNI"

/-- Modelled from the spec: the JNI symbol-escaping rule for one character
of a fully-qualified name — the package separator `.` becomes `_`, and a
literal `_` is escaped as the two-character sequence `_1`. -/
def mangleChar (c : Char) : List Char :=
  if c = '.' then ['_']
  else if c = '_' then ['_', '1']
  else [c]

/-- Modelled from the spec: escaping of a fully-qualified type or method
name under the JNI naming convention. -/
def mangleName (s : String) : String :=
  String.mk ((s.toList.map mangleChar).flatten)

/-- Modelled from the spec: the exported-name pattern
`<bridge-prefix>_<fully-qualified-caller-type>_<method-name>` with the
bridge prefix `Java`. -/
def jniExportName (cls mth : String) : String :=
  "Java_" ++ mangleName cls ++ "_" ++ mangleName mth

/-! ### Helper lemmas -/

/-- Marshalling the greeting through `c_str` and modified-UTF-8 decoding
reproduces its bytes exactly. -/
theorem mutf8_roundtrip :
    mutf8Decode (readNulTerminated (cStrBuffer hello)) = some hello := by
  decide

/-- When allocation succeeds, the bridge returns the managed greeting. -/
theorem stringFromJNI_of_ok (env : JNIEnv) (t : JObject)
    (h : env.allocFails = false) :
    stringFromJNI env t = some (JavaString.mk hello) := by
  rcases env with ⟨af⟩
  cases h
  rfl

/-- When allocation fails, the bridge returns null. -/
theorem stringFromJNI_of_fail (env : JNIEnv) (t : JObject)
    (h : env.allocFails = true) :
    stringFromJNI env t = none := by
  rcases env with ⟨af⟩
  cases h
  rfl

/-- A non-null result of the bridge is always the managed greeting. -/
theorem stringFromJNI_some (env : JNIEnv) (t : JObject) (s : JavaString)
    (h : stringFromJNI env t = some s) : s = JavaString.mk hello := by
  rcases env with ⟨af⟩
  cases af
  · rw [stringFromJNI_of_ok ⟨false⟩ t rfl] at h
    exact (Option.some_inj.mp h).symm
  · rw [stringFromJNI_of_fail ⟨true⟩ t rfl] at h
    exact Option.noConfusion h

/-- The value an invocation returns is the pure bridge result: it does
not depend on the world state the invocation runs in. -/
theorem invoke_fst (env : JNIEnv) (t : JObject) (w : World) :
    (invoke env t w).1 = stringFromJNI env t := by
  cases hm : stringFromJNI env t <;> simp [invoke, hm]

/-- One invocation leaves files and globals untouched, appends at most
one managed string to the heap, and performs one native allocation. -/
theorem invoke_world (env : JNIEnv) (t : JObject) (w : World) :
    ((invoke env t w).2).filesWritten = w.filesWritten ∧
    ((invoke env t w).2).globals = w.globals ∧
    (∃ added, ((invoke env t w).2).javaHeap = w.javaHeap ++ added ∧
        added.length ≤ 1) ∧
    ((invoke env t w).2).nativeAllocs = w.nativeAllocs + 1 := by
  cases hm : stringFromJNI env t with
  | none => exact ⟨by simp [invoke, hm], by simp [invoke, hm],
      ⟨[], by simp [invoke, hm], by simp⟩, by simp [invoke, hm]⟩
  | some s => exact ⟨by simp [invoke, hm], by simp [invoke, hm],
      ⟨[s], by simp [invoke, hm], by simp⟩, by simp [invoke, hm]⟩

/-! ### Claims -/

/-- C1: for every invocation with a valid context handle, when string
construction does not fail, the bridge returns a managed string whose
content equals the literal "Hello from Genesis C++ Core" byte-for-byte. -/
theorem c1_greeting_content (env : JNIEnv) (t : JObject) (s : JavaString)
    (h : stringFromJNI env t = some s) :
    s.codeUnits = bytesOfLiteral "Hello from Genesis C++ Core" := by
  rw [stringFromJNI_some env t s h]
  rfl

/-- Witness for C1 at a concrete invocation. -/
theorem c1_greeting_content_witness :
    stringFromJNI ⟨false⟩ ⟨0⟩ = some (JavaString.mk hello) ∧
    (JavaString.mk hello).codeUnits =
      bytesOfLiteral "Hello from Genesis C++ Core" :=
  ⟨rfl, c1_greeting_content ⟨false⟩ ⟨0⟩ (JavaString.mk hello) rfl⟩

/-- C2: the bridge's result is independent of both arguments — the caller
reference is never read, any two successful invocations return equal
string contents, the value returned does not depend on the world state
the invocation observes, and an invocation only appends to the managed
heap, never altering the results already in it. -/
theorem c2_argument_independence :
    (∀ (e : JNIEnv) (t u : JObject), stringFromJNI e t = stringFromJNI e u) ∧
    (∀ (e1 e2 : JNIEnv) (t1 t2 : JObject) (s1 s2 : JavaString),
        stringFromJNI e1 t1 = some s1 → stringFromJNI e2 t2 = some s2 →
        s1 = s2) ∧
    (∀ (e : JNIEnv) (t : JObject) (w1 w2 : World),
        (invoke e t w1).1 = (invoke e t w2).1) ∧
    (∀ (e : JNIEnv) (t : JObject) (w : World),
        ∃ added, ((invoke e t w).2).javaHeap = w.javaHeap ++ added) := by
  refine ⟨fun e t u => rfl, fun e1 e2 t1 t2 s1 s2 h1 h2 => ?_, ?_, ?_⟩
  · rw [stringFromJNI_some e1 t1 s1 h1, stringFromJNI_some e2 t2 s2 h2]
  · intro e t w1 w2
    rw [invoke_fst e t w1, invoke_fst e t w2]
  · intro e t w
    exact (invoke_world e t w).2.2.1.imp fun a ha => ha.1

/-- Witness for C2: two concrete successful invocations with different
handles and caller references return equal contents. -/
theorem c2_argument_independence_witness :
    stringFromJNI ⟨false⟩ ⟨0⟩ = some (JavaString.mk hello) ∧
    stringFromJNI ⟨false⟩ ⟨1⟩ = some (JavaString.mk hello) ∧
    JavaString.mk hello = JavaString.mk hello :=
  ⟨rfl, rfl,
    c2_argument_independence.2.1 ⟨false⟩ ⟨false⟩ ⟨0⟩ ⟨1⟩
      (JavaString.mk hello) (JavaString.mk hello) rfl rfl⟩

/-- C3: the bridge returns the string-construction facility's result
unmodified — no retry, no fallback, no value-level error — and its only
failure mode is allocation failure inside that facility. -/
theorem c3_failure_propagates_unmodified (env : JNIEnv) (t : JObject) :
    stringFromJNI env t = env.newStringUTF (cStrBuffer hello) ∧
    (stringFromJNI env t = none ↔ env.allocFails = true) := by
  refine ⟨rfl, ?_⟩
  rcases env with ⟨af⟩
  cases af
  · rw [stringFromJNI_of_ok ⟨false⟩ t rfl]
    simp
  · rw [stringFromJNI_of_fail ⟨true⟩ t rfl]
    simp

/-- C4: under normal conditions (string construction does not fail with
an allocation error), the bridge returns a valid, non-null text object. -/
theorem c4_nonnull_normal (env : JNIEnv) (t : JObject)
    (h : env.allocFails = false) :
    stringFromJNI env t = some (JavaString.mk hello) :=
  stringFromJNI_of_ok env t h

/-- Witness for C4 at a concrete invocation. -/
theorem c4_nonnull_normal_witness :
    (JNIEnv.mk false).allocFails = false ∧
    stringFromJNI ⟨false⟩ ⟨0⟩ = some (JavaString.mk hello) :=
  ⟨rfl, c4_nonnull_normal ⟨false⟩ ⟨0⟩ rfl⟩

/-- C5: after any number of invocations, no observable process-wide state
has changed — no files written, no globals mutated — and the only effects
are one native-layer allocation per call plus at most one managed string
object appended to the heap per call. -/
theorem c5_frame_effects (calls : List (JNIEnv × JObject)) (w : World) :
    (runAll calls w).filesWritten = w.filesWritten ∧
    (runAll calls w).globals = w.globals ∧
    (∃ added, (runAll calls w).javaHeap = w.javaHeap ++ added ∧
        added.length ≤ calls.length) ∧
    (runAll calls w).nativeAllocs = w.nativeAllocs + calls.length := by
  induction calls generalizing w with
  | nil => exact ⟨rfl, rfl, ⟨[], by simp [runAll], by simp⟩, rfl⟩
  | cons c cs ih =>
    have step : runAll (c :: cs) w = runAll cs ((invoke c.1 c.2 w).2) := rfl
    obtain ⟨i1, i2, ⟨a1, i3, i4⟩, i5⟩ := invoke_world c.1 c.2 w
    obtain ⟨h1, h2, ⟨a2, h3, h4⟩, h5⟩ := ih ((invoke c.1 c.2 w).2)
    refine ⟨?_, ?_, ⟨a1 ++ a2, ?_, ?_⟩, ?_⟩
    · rw [step, h1, i1]
    · rw [step, h2, i2]
    · rw [step, h3, i3, List.append_assoc]
    · simp only [List.length_append, List.length_cons]
      omega
    · rw [step, h5, i5]
      simp only [List.length_cons]
      omega

/-- C6: the exported symbol equals the naming pattern
`<bridge-prefix>_<fully-qualified-caller-type>_<method-name>` applied to
`com.auraframes.fx.MainActivity` / `stringFromJNI` under the underscore
escaping rule. -/
theorem c6_symbol_name :
    exportedSymbol = jniExportName "com.auraframes.fx.MainActivity"
      "stringFromJNI" := by
  decide

/-- C7: every invocation terminates unconditionally — the embedded
function is total, producing a result and a successor world on every
input, and the value handed back to the calling thread is the pure bridge
result. -/
theorem c7_terminates (env : JNIEnv) (t : JObject) (w : World) :
    ∃ r w2, invoke env t w = (r, w2) ∧ r = stringFromJNI env t :=
  ⟨(invoke env t w).1, (invoke env t w).2, rfl, invoke_fst env t w⟩

/-- C8: invoked from 8 independent threads, each in whatever world state
the interleaving puts it in, every invocation (with a valid handle and no
allocation failure) returns the same result — the greeting — regardless
of thread or interleaving. -/
theorem c8_concurrent_identical (threads : Fin 8 → JNIEnv × JObject)
    (ws : Fin 8 → World)
    (h : ∀ i, (threads i).1.allocFails = false) (i j : Fin 8) :
    (invoke (threads i).1 (threads i).2 (ws i)).1 =
      some (JavaString.mk hello) ∧
    (invoke (threads i).1 (threads i).2 (ws i)).1 =
      (invoke (threads j).1 (threads j).2 (ws j)).1 := by
  have ri : (invoke (threads i).1 (threads i).2 (ws i)).1 =
      some (JavaString.mk hello) := by
    rw [invoke_fst]
    exact stringFromJNI_of_ok (threads i).1 (threads i).2 (h i)
  have rj : (invoke (threads j).1 (threads j).2 (ws j)).1 =
      some (JavaString.mk hello) := by
    rw [invoke_fst]
    exact stringFromJNI_of_ok (threads j).1 (threads j).2 (h j)
  exact ⟨ri, by rw [ri, rj]⟩

/-- Witness for C8 with 8 concrete threads. -/
theorem c8_concurrent_identical_witness :
    (invoke (JNIEnv.mk false) (JObject.mk 0) (World.mk [] [] [] 0)).1 =
      some (JavaString.mk hello) ∧
    (invoke (JNIEnv.mk false) (JObject.mk 0) (World.mk [] [] [] 0)).1 =
      (invoke (JNIEnv.mk false) (JObject.mk 0) (World.mk [] [] [] 0)).1 :=
  c8_concurrent_identical (fun _ => (JNIEnv.mk false, JObject.mk 0))
    (fun _ => World.mk [] [] [] 0) (fun _ => rfl) 0 1

/-- C9: the bridge dereferences the environment handle with no null or
validity check — a null handle gives undefined behaviour rather than an
error return, and a valid handle runs the bridge body. -/
theorem c9_null_env_undefined :
    (∀ t : JObject,
        stringFromJNIRaw none t = CallOutcome.undefinedBehavior) ∧
    (∀ (e : JNIEnv) (t : JObject),
        stringFromJNIRaw (some e) t = CallOutcome.ret (stringFromJNI e t)) :=
  ⟨fun _ => rfl, fun _ _ => rfl⟩

/-- C10: the greeting literal is pure ASCII with no embedded NUL, so the
null-terminated `c_str` buffer read back stops at the terminator only,
and modified-UTF-8 decoding — the identity on ASCII — transfers all 27
characters unchanged. -/
theorem c10_ascii_marshalling :
    hello.length = 27 ∧
    (∀ b ∈ hello, 0 < b ∧ b < 128) ∧
    readNulTerminated (cStrBuffer hello) = hello ∧
    mutf8Decode (readNulTerminated (cStrBuffer hello)) = some hello := by
  decide

/-- Witness for C10: the membership hypothesis discharged at the first
byte of the literal. -/
theorem c10_ascii_marshalling_witness : 0 < 72 ∧ 72 < 128 :=
  c10_ascii_marshalling.2.1 72 (by decide)

end GenesisBridge
